import Mathlib

/-!
Shallow embedding of the OpticalDensityThreshold plugin
(files `ODThresholdKernel.h`, `ODThresholdKernel.cpp`,
`OpticalDensityThreshold.h`, `OpticalDensityThreshold.cpp`).

Doubles are modelled as rationals; raw channel intensities as integers.
The external RGB-to-OD lookup table (`ODConversion`, not part of this
repository) is modelled as an arbitrary function parameter `lookup`.
-/

/-- Color models of the host framework that this plugin distinguishes
(`ColorModel::Grayscale`, `ColorModel::BGR` are tested explicitly in
`ODThresholdKernel.cpp`; `RGBA` is used for the output; `RGB` stands for
any other multi-channel model). -/
inductive ColorModel
  | Grayscale
  | RGB
  | BGR
  | RGBA
deriving DecidableEq, Repr

/-- Channel storage types of the host framework (`ChannelType::UInt8` is
the one this plugin uses for its output). -/
inductive ChannelType
  | UInt8
  | UInt16
deriving DecidableEq, Repr

/-- A color space is a color model together with a channel type
(mirrors `sedeen::ColorSpace`). -/
structure ColorSpace where
  colorModel : ColorModel
  channelType : ChannelType
deriving DecidableEq, Repr

/-- Number of channels a color model declares (framework convention:
grayscale has 1 channel, RGB and BGR have 3, RGBA has 4). -/
def colorModelChannels : ColorModel → Nat
  | ColorModel.Grayscale => 1
  | ColorModel.RGB => 3
  | ColorModel.BGR => 3
  | ColorModel.RGBA => 4

/-- Maximum representable channel value of a color space
(mirrors `sedeen::maxChannelValue`, used at `ODThresholdKernel.cpp:103`). -/
def maxChannelValue (cs : ColorSpace) : Int :=
  match cs.channelType with
  | ChannelType.UInt8 => 255
  | ChannelType.UInt16 => 65535

/-- Pixel memory order of a buffer (`sedeen::PixelOrder`).  `Other` stands
for any enumerator that is neither `Interleaved` nor `Planar`. -/
inductive PixelOrder
  | Interleaved
  | Planar
  | Other
deriving DecidableEq, Repr

/-- A pixel buffer (mirrors `sedeen::image::RawImage` as consumed by the
kernel): width, height, declared channel count, color space, pixel memory
order, and linearly indexed element data.  The channel count is recorded
as a buffer attribute (spec data model); for well-formed buffers it equals
`colorModelChannels` of the color model, but a mismatched caller can
violate that, which is exactly the situation the out-of-range-channel
fault guards against. -/
structure RawImage where
  width : Nat
  height : Nat
  channelCount : Nat
  colorSpace : ColorSpace
  order : PixelOrder
  data : Nat → Int

/-- Declared channel count of a source buffer
(mirrors the `channels(source)` call at `ODThresholdKernel.cpp:93`). -/
def channels (src : RawImage) : Nat := src.channelCount

/-- Number of spatial pixel positions of a buffer; the processing loop at
`ODThresholdKernel.cpp:128` iterates `width*height` positions. -/
def numPixels (src : RawImage) : Nat := src.width * src.height

/-- Fixed output color space of the kernel: RGBA with 8-bit channels
(`ODThresholdKernel.cpp:48`). -/
def OutputColor : ColorSpace :=
  { colorModel := ColorModel.RGBA, channelType := ChannelType.UInt8 }

/-- Threshold behavior enumeration (`ODThresholdKernel.h:54-61`); the
enumerators have the ordinal values 0, 1, 2 in the source. -/
inductive Behavior
  | RETAIN_LOWER_OD
  | RETAIN_HIGHER_OD
  | NO_ACTION
deriving DecidableEq, Repr

/-- The three OD weights (`std::array<double, 3>` in the source). -/
structure Weights3 where
  w0 : ℚ
  w1 : ℚ
  w2 : ℚ
deriving DecidableEq, Repr

/-- Indexed access to the weight triple (mirrors `m_weightVals.at(ch)`
for `ch` in 0..2). -/
def Weights3.get (w : Weights3) : Nat → ℚ
  | 0 => w.w0
  | 1 => w.w1
  | _ => w.w2

/-- Mutable configuration state of the kernel
(`ODThresholdKernel.h:107-109`). -/
structure ODThresholdKernel where
  m_odThreshVal : ℚ
  m_behavior : Behavior
  m_weightVals : Weights3
deriving DecidableEq, Repr

/-- Threshold setter (`ODThresholdKernel.cpp:63-68`).  The returned
number counts the calls to the `update()` invalidation notification made
by this setter (0 or 1). -/
def setODThreshold (k : ODThresholdKernel) (v : ℚ) : ODThresholdKernel × Nat :=
  if k.m_odThreshVal ≠ v then ({ k with m_odThreshVal := v }, 1) else (k, 0)

/-- Behavior setter (`ODThresholdKernel.cpp:70-75`), with the same
`update()` call count as `setODThreshold`. -/
def setBehavior (k : ODThresholdKernel) (t : Behavior) : ODThresholdKernel × Nat :=
  if t ≠ k.m_behavior then ({ k with m_behavior := t }, 1) else (k, 0)

/-- Weights setter (`ODThresholdKernel.cpp:77-82`), with the same
`update()` call count as `setODThreshold`. -/
def setWeights (k : ODThresholdKernel) (w : Weights3) : ODThresholdKernel × Nat :=
  if w ≠ k.m_weightVals then ({ k with m_weightVals := w }, 1) else (k, 0)

/-- Output color space declared by the kernel
(`ODThresholdKernel.cpp:250-252`). -/
def doGetColorSpace (_k : ODThresholdKernel) : ColorSpace := OutputColor

/-- Channel-source mapping computed at `ODThresholdKernel.cpp:106-115`:
grayscale or single-channel sources use channel 0 three times, BGR
sources use channels 2, 1, 0, every other source uses channels 0, 1, 2. -/
def translateSourceToOutputChannels
    (sourceColorModel : ColorModel) (numSourceChannels : Nat) : List Nat :=
  if sourceColorModel = ColorModel.Grayscale ∨ numSourceChannels = 1 then [0, 0, 0]
  else if sourceColorModel = ColorModel.BGR then [2, 1, 0]
  else [0, 1, 2]

/-- Element offset of channel `c` of pixel `p` in a buffer with `nch`
channels and `np` pixels (spec step 2; also the commented index
derivation at `ODThresholdKernel.cpp:196-204`): interleaved buffers store
`p*nch + c`, planar buffers store `c*np + p`.  The `Other` branch is
unreachable behind the layout validation. -/
def srcOffset (order : PixelOrder) (nch np p c : Nat) : Nat :=
  match order with
  | PixelOrder.Interleaved => p * nch + c
  | PixelOrder.Planar => c * np + p
  | PixelOrder.Other => 0

/-- Element offset of channel `c` of pixel `p` in the 4-channel output
buffer, by the same layout rule as `srcOffset`. -/
def outOffset (order : PixelOrder) (np p c : Nat) : Nat :=
  match order with
  | PixelOrder.Interleaved => p * 4 + c
  | PixelOrder.Planar => c * np + p
  | PixelOrder.Other => 0

/-- Pixel position holding output element `i` (inverse of `outOffset`). -/
def outPixelOf (order : PixelOrder) (np i : Nat) : Nat :=
  match order with
  | PixelOrder.Interleaved => i / 4
  | PixelOrder.Planar => i % np
  | PixelOrder.Other => 0

/-- Channel holding output element `i` (inverse of `outOffset`). -/
def outChannelOf (order : PixelOrder) (np i : Nat) : Nat :=
  match order with
  | PixelOrder.Interleaved => i % 4
  | PixelOrder.Planar => i / np
  | PixelOrder.Other => 0

/-- Sum of the three weights (`std::accumulate` from 0.0 at
`ODThresholdKernel.cpp:121`). -/
def weightSum (k : ODThresholdKernel) : ℚ :=
  0 + k.m_weightVals.w0 + k.m_weightVals.w1 + k.m_weightVals.w2

/-- Normalization denominator: 1.0 when the weight sum is exactly zero,
the weight sum otherwise (`ODThresholdKernel.cpp:122`). -/
def weightDenominator (k : ODThresholdKernel) : ℚ :=
  if weightSum k = 0 then 1 else weightSum k

/-- OD value read for channel `c` of pixel `p` of the source: the raw
integer element is converted through the external lookup table
(`converter->LookupRGBtoOD` at `ODThresholdKernel.cpp:156`). -/
def odRead (lookup : Int → ℚ) (src : RawImage) (p c : Nat) : ℚ :=
  lookup (src.data (srcOffset src.order (channels src) (numPixels src) p c))

/-- Combined weighted OD of pixel `p`: the weighted sum of the three OD
reads selected by `translateSourceToOutputChannels`, divided by
`weightDenominator`.  Modelled from the spec: the accumulation loop in
`doProcessData` is unfinished in the source (`ODThresholdKernel.cpp:133-172`);
this definition follows spec steps 1-4, which agree with the live loop
fragment at `ODThresholdKernel.cpp:149-156` and the commented-out complete
loop at `ODThresholdKernel.cpp:210-221`. -/
def combinedOD (k : ODThresholdKernel) (lookup : Int → ℚ)
    (src : RawImage) (p : Nat) : ℚ :=
  let t := translateSourceToOutputChannels src.colorSpace.colorModel (channels src)
  (k.m_weightVals.get 0 * odRead lookup src p (t.getD 0 0)
    + k.m_weightVals.get 1 * odRead lookup src p (t.getD 1 0)
    + k.m_weightVals.get 2 * odRead lookup src p (t.getD 2 0))
    / weightDenominator k

/-- Retention predicate.  Modelled from the spec (step 5): retain-lower
keeps a pixel when its combined OD is at most the threshold, retain-higher
when it is at least the threshold, and no-action never retains; the
comparisons match the commented-out switch at
`ODThresholdKernel.cpp:223-240`, and the always-false no-action case
follows the spec and the `NO_ACTION` documentation in
`ODThresholdKernel.h:59-60`. -/
def retainPred (b : Behavior) (odVal thresh : ℚ) : Bool :=
  match b with
  | Behavior.RETAIN_LOWER_OD => decide (odVal ≤ thresh)
  | Behavior.RETAIN_HIGHER_OD => decide (thresh ≤ odVal)
  | Behavior.NO_ACTION => false

/-- Freshly allocated output buffer: source width and height, the fixed
RGBA/UInt8 color space, the source pixel order, and every element
zero-initialized (`ODThresholdKernel.cpp:97-99`). -/
def mkOutputBuffer (src : RawImage) : RawImage :=
  { width := src.width
    height := src.height
    channelCount := colorModelChannels OutputColor.colorModel
    colorSpace := OutputColor
    order := src.order
    data := fun _ => 0 }

/-- Value of channel `c` of output pixel `p` after processing.  Modelled
from the spec (steps 6-7): channel 3 is set to the maximum output channel
value unconditionally (live code at `ODThresholdKernel.cpp:185-186`);
channels 0-2 receive the mapped source channel value verbatim when the
pixel is retained, and keep their zero-initialized value otherwise. -/
def pixelValue (k : ODThresholdKernel) (lookup : Int → ℚ)
    (src : RawImage) (p c : Nat) : Int :=
  if c = 3 then maxChannelValue OutputColor
  else if retainPred k.m_behavior (combinedOD k lookup src p) k.m_odThreshVal then
    src.data (srcOffset src.order (channels src) (numPixels src) p
      ((translateSourceToOutputChannels src.colorSpace.colorModel (channels src)).getD c 0))
  else
    (mkOutputBuffer src).data (outOffset src.order (numPixels src) p c)

/-- The populated output buffer: `mkOutputBuffer` with each element inside
the output range replaced by `pixelValue` of its pixel and channel.
Modelled from the spec: the per-pixel loop writes disjoint element
offsets, so the fill-then-write algorithm is characterized per element. -/
def processOutput (k : ODThresholdKernel) (lookup : Int → ℚ)
    (src : RawImage) : RawImage :=
  { mkOutputBuffer src with
      data := fun i =>
        if i < numPixels src * 4 then
          pixelValue k lookup src (outPixelOf src.order (numPixels src) i)
            (outChannelOf src.order (numPixels src) i)
        else (mkOutputBuffer src).data i }

/-- Whether the pixel memory order is one of the two recognized kinds
(the commented layout dispatch at `ODThresholdKernel.cpp:196-208`
handles exactly `Interleaved` and `Planar` and asserts otherwise). -/
def validLayout (order : PixelOrder) : Bool :=
  match order with
  | PixelOrder.Interleaved => true
  | PixelOrder.Planar => true
  | PixelOrder.Other => false

/-- Whether every derived channel index is strictly below the declared
source channel count (the live in-loop check at
`ODThresholdKernel.cpp:151-153` asserts on `sourceChannelNum >= numSourceChannels`). -/
def channelsInRange (src : RawImage) : Bool :=
  (translateSourceToOutputChannels src.colorSpace.colorModel (channels src)).all
    (fun c => decide (c < channels src))

/-- Unrecoverable faults of the transform (spec error taxonomy): an
unrecognized memory layout, or a derived channel index at or beyond the
declared channel count.  Both are `assert(false)` aborts in the source. -/
inductive Fault
  | invalidLayout
  | outOfRangeChannel
deriving DecidableEq, Repr

/-- The transform (`ODThresholdKernel::doProcessData`).  Modelled from
the spec: the function body in the source is unfinished (the literal text
at `ODThresholdKernel.cpp:143` is not even valid C++, and the retention
switch survives only as commented-out code), so the fault checks are
taken as the spec states them (preconditions checked before processing,
aborting the call without producing an output), and the successful path
produces `processOutput`.  The live source parts (output construction,
channel mapping, weight denominator, unconditional alpha write, channel
range check) are embedded in the definitions this one uses. -/
def doProcessData (k : ODThresholdKernel) (lookup : Int → ℚ)
    (src : RawImage) : Except Fault RawImage :=
  if validLayout src.order = false then Except.error Fault.invalidLayout
  else if channelsInRange src = false then Except.error Fault.outOfRangeChannel
  else Except.ok (processOutput k lookup src)

/-- Parameter values read by `OpticalDensityThreshold::buildPipeline`
when it constructs the thresholding kernel
(`OpticalDensityThreshold.cpp:174-239`): the threshold control value, the
selected retainment option index, the selected threshold-type option
index, and the three weight controls. -/
structure PipelineParams where
  m_threshold : ℚ
  m_retainment : Int
  m_thresholdType : Int
  m_RWeight : ℚ
  m_GWeight : ℚ
  m_BWeight : ℚ
deriving DecidableEq, Repr

/-- Behavior selected from the retainment option index
(`OpticalDensityThreshold.cpp:197-208`); the comparisons are against the
enum ordinals `RETAIN_LOWER_OD = 0` and `RETAIN_HIGHER_OD = 1`, any other
index yields `NO_ACTION`. -/
def behaviorFromRetainment (retainmentOptionNum : Int) : Behavior :=
  if retainmentOptionNum = 0 then Behavior.RETAIN_LOWER_OD
  else if retainmentOptionNum = 1 then Behavior.RETAIN_HIGHER_OD
  else Behavior.NO_ACTION

/-- The kernel constructed by `buildPipeline`
(`OpticalDensityThreshold.cpp:210-214`): threshold scaled down by 100,
the behavior from the retainment option, and the three weight controls. -/
def buildPipelineKernel (p : PipelineParams) : ODThresholdKernel :=
  { m_odThreshVal := p.m_threshold / 100
    m_behavior := behaviorFromRetainment p.m_retainment
    m_weightVals := { w0 := p.m_RWeight, w1 := p.m_GWeight, w2 := p.m_BWeight } }

/-- Change flags tested by `buildPipeline` to decide whether to rebuild
the processing pipeline (`OpticalDensityThreshold.cpp:183-192`). -/
structure ParamChangedFlags where
  regionToProcess : Bool
  threshold : Bool
  displayArea : Bool
  retainment : Bool
  thresholdType : Bool
  rweight : Bool
  gweight : Bool
  bweight : Bool
  factoryIsNull : Bool
deriving DecidableEq, Repr

/-- The rebuild condition of `buildPipeline`
(`OpticalDensityThreshold.cpp:183-192`): any changed parameter, or a
missing factory, triggers reconstruction of the kernel and pipeline. -/
def rebuildCondition (f : ParamChangedFlags) : Bool :=
  f.regionToProcess || f.threshold || f.displayArea || f.retainment
    || f.thresholdType || f.rweight || f.gweight || f.bweight || f.factoryIsNull

/-- Channel-source mapping exactly as claim C1 states it: channel 0
three times for grayscale or single-channel sources, channels 0, 1, 2
with no color-model-specific reordering for every other source. -/
def claimNoReorderMapping (m : ColorModel) (nch : Nat) : List Nat :=
  if m = ColorModel.Grayscale ∨ nch = 1 then [0, 0, 0] else [0, 1, 2]

/-- Identity-like OD lookup used for concrete evaluations: a deterministic
table assigning each raw intensity its own value as a rational. -/
def lookupId : Int → ℚ := fun v => (v : ℚ)

/-- Concrete 1 by 1 interleaved RGB source with pixel (10, 20, 30). -/
def srcRGB : RawImage :=
  { width := 1, height := 1, channelCount := 3
    colorSpace := { colorModel := ColorModel.RGB, channelType := ChannelType.UInt8 }
    order := PixelOrder.Interleaved
    data := fun i => (([10, 20, 30] : List Int).getD i 0) }

/-- Concrete 1 by 1 interleaved BGR source with elements (10, 20, 30). -/
def srcBGR : RawImage :=
  { width := 1, height := 1, channelCount := 3
    colorSpace := { colorModel := ColorModel.BGR, channelType := ChannelType.UInt8 }
    order := PixelOrder.Interleaved
    data := fun i => (([10, 20, 30] : List Int).getD i 0) }

/-- Concrete 2 by 1 grayscale source with intensities (50, 200). -/
def srcGray : RawImage :=
  { width := 2, height := 1, channelCount := 1
    colorSpace := { colorModel := ColorModel.Grayscale, channelType := ChannelType.UInt8 }
    order := PixelOrder.Interleaved
    data := fun i => (([50, 200] : List Int).getD i 0) }

/-- Concrete source whose memory layout is neither interleaved nor planar. -/
def srcBadLayout : RawImage :=
  { width := 1, height := 1, channelCount := 3
    colorSpace := { colorModel := ColorModel.RGB, channelType := ChannelType.UInt8 }
    order := PixelOrder.Other
    data := fun _ => 0 }

/-- Concrete source with a mismatched collaborator contract: an RGB color
model but only 2 declared channels, so derived channel index 2 is out of
range. -/
def srcMismatch : RawImage :=
  { width := 1, height := 1, channelCount := 2
    colorSpace := { colorModel := ColorModel.RGB, channelType := ChannelType.UInt8 }
    order := PixelOrder.Interleaved
    data := fun i => (([10, 20] : List Int).getD i 0) }

/-- Concrete kernel: retain-lower, threshold 1, unit weights. -/
def kLower : ODThresholdKernel :=
  { m_odThreshVal := 1, m_behavior := Behavior.RETAIN_LOWER_OD
    m_weightVals := { w0 := 1, w1 := 1, w2 := 1 } }

/-- Concrete kernel: retain-lower, threshold 100, unit weights. -/
def kLowerWide : ODThresholdKernel :=
  { m_odThreshVal := 100, m_behavior := Behavior.RETAIN_LOWER_OD
    m_weightVals := { w0 := 1, w1 := 1, w2 := 1 } }

/-- Concrete kernel in the no-action mode. -/
def kNoAction : ODThresholdKernel :=
  { m_odThreshVal := 1, m_behavior := Behavior.NO_ACTION
    m_weightVals := { w0 := 1, w1 := 1, w2 := 1 } }

/-- Concrete kernel with all three weights zero. -/
def kZeroWeights : ODThresholdKernel :=
  { m_odThreshVal := 1, m_behavior := Behavior.RETAIN_LOWER_OD
    m_weightVals := { w0 := 0, w1 := 0, w2 := 0 } }

/-- Concrete kernel whose weights sum to zero without being all zero. -/
def kMixedWeights : ODThresholdKernel :=
  { m_odThreshVal := 0, m_behavior := Behavior.RETAIN_LOWER_OD
    m_weightVals := { w0 := 1, w1 := -1, w2 := 0 } }

/-- Concrete kernel whose combined OD on `srcRGB` (value 10) equals its
threshold, so retain-lower keeps the pixel. -/
def kCopy : ODThresholdKernel :=
  { m_odThreshVal := 10, m_behavior := Behavior.RETAIN_LOWER_OD
    m_weightVals := { w0 := 1, w1 := 0, w2 := 0 } }

/-- Concrete kernel whose combined OD on `srcRGB` (value 10) exceeds its
threshold, so retain-lower drops the pixel. -/
def kSkip : ODThresholdKernel :=
  { m_odThreshVal := 5, m_behavior := Behavior.RETAIN_LOWER_OD
    m_weightVals := { w0 := 1, w1 := 0, w2 := 0 } }

/-- Concrete pipeline parameters with threshold type option 0. -/
def ppA : PipelineParams :=
  { m_threshold := 20, m_retainment := 0, m_thresholdType := 0
    m_RWeight := 1, m_GWeight := 1, m_BWeight := 1 }

/-- Concrete pipeline parameters identical to `ppA` except for the
threshold type option. -/
def ppB : PipelineParams :=
  { m_threshold := 20, m_retainment := 0, m_thresholdType := 1
    m_RWeight := 1, m_GWeight := 1, m_BWeight := 1 }

/-- Concrete change flags: only the threshold-type selection changed. -/
def thresholdTypeOnlyFlags : ParamChangedFlags :=
  { regionToProcess := false, threshold := false, displayArea := false
    retainment := false, thresholdType := true, rweight := false
    gweight := false, bweight := false, factoryIsNull := false }

/-- Evaluated channel mapping for a 3-channel RGB source. -/
theorem translate_rgb3 : translateSourceToOutputChannels ColorModel.RGB 3 = [0, 1, 2] := by
  decide

/-- Evaluated channel mapping for a 3-channel BGR source. -/
theorem translate_bgr3 : translateSourceToOutputChannels ColorModel.BGR 3 = [2, 1, 0] := by
  decide

/-- Evaluated channel mapping for a single-channel grayscale source. -/
theorem translate_gray1 : translateSourceToOutputChannels ColorModel.Grayscale 1 = [0, 0, 0] := by
  decide

/-- Evaluated channel mapping for the mismatched 2-channel RGB source. -/
theorem translate_rgb2 : translateSourceToOutputChannels ColorModel.RGB 2 = [0, 1, 2] := by
  decide


/-- The output element offset of a valid pixel and channel lies inside
the output element range. -/
theorem outOffset_lt {order : PixelOrder} {np p c : Nat}
    (ho : validLayout order = true) (hp : p < np) (hc : c < 4) :
    outOffset order np p c < np * 4 := by
  cases order with
  | Interleaved => simp only [outOffset]; omega
  | Planar =>
      simp only [outOffset]
      have h3 : c * np ≤ 3 * np := Nat.mul_le_mul_right np (by omega)
      have h4 : 3 * np + np = np * 4 := by ring
      omega
  | Other => simp [validLayout] at ho

/-- Decoding the pixel component of an output offset recovers the pixel. -/
theorem outPixelOf_outOffset {order : PixelOrder} {np p c : Nat}
    (ho : validLayout order = true) (hp : p < np) (hc : c < 4) :
    outPixelOf order np (outOffset order np p c) = p := by
  cases order with
  | Interleaved => simp only [outOffset, outPixelOf]; omega
  | Planar =>
      simp only [outOffset, outPixelOf]
      rw [Nat.mul_comm c np, Nat.mul_add_mod, Nat.mod_eq_of_lt hp]
  | Other => simp [validLayout] at ho

/-- Decoding the channel component of an output offset recovers the
channel. -/
theorem outChannelOf_outOffset {order : PixelOrder} {np p c : Nat}
    (ho : validLayout order = true) (hp : p < np) (hc : c < 4) :
    outChannelOf order np (outOffset order np p c) = c := by
  cases order with
  | Interleaved => simp only [outOffset, outChannelOf]; omega
  | Planar =>
      simp only [outOffset, outChannelOf]
      have hnp : 0 < np := Nat.lt_of_le_of_lt (Nat.zero_le p) hp
      rw [Nat.mul_comm c np, Nat.mul_add_div hnp, Nat.div_eq_of_lt hp, Nat.add_zero]
  | Other => simp [validLayout] at ho

/-- The populated output buffer holds `pixelValue` at every valid pixel
and channel offset. -/
theorem processOutput_data_at (k : ODThresholdKernel) (lookup : Int → ℚ)
    (src : RawImage) {p c : Nat}
    (ho : validLayout src.order = true) (hp : p < numPixels src) (hc : c < 4) :
    (processOutput k lookup src).data (outOffset src.order (numPixels src) p c)
      = pixelValue k lookup src p c := by
  have h1 : outOffset src.order (numPixels src) p c < numPixels src * 4 :=
    outOffset_lt ho hp hc
  simp only [processOutput]
  rw [if_pos h1, outPixelOf_outOffset ho hp hc, outChannelOf_outOffset ho hp hc]

/-- On a source with a recognized layout and in-range derived channels,
the transform succeeds and returns the populated output buffer. -/
theorem doProcessData_ok (k : ODThresholdKernel) (lookup : Int → ℚ)
    (src : RawImage) (ho : validLayout src.order = true)
    (hcr : channelsInRange src = true) :
    doProcessData k lookup src = Except.ok (processOutput k lookup src) := by
  simp [doProcessData, ho, hcr]

/-- Combined OD of `kCopy` on the concrete RGB pixel: only channel 0
contributes, giving the looked-up value 10. -/
theorem combinedOD_kCopy : combinedOD kCopy lookupId srcRGB 0 = 10 := by
  simp [combinedOD, kCopy, lookupId, srcRGB, odRead, srcOffset, channels, numPixels,
    translate_rgb3, weightDenominator, weightSum, Weights3.get]

/-- Combined OD of `kSkip` on the concrete RGB pixel: only channel 0
contributes, giving the looked-up value 10. -/
theorem combinedOD_kSkip : combinedOD kSkip lookupId srcRGB 0 = 10 := by
  simp [combinedOD, kSkip, lookupId, srcRGB, odRead, srcOffset, channels, numPixels,
    translate_rgb3, weightDenominator, weightSum, Weights3.get]

/-- C5: a source whose memory layout is neither interleaved nor planar
makes the transform signal the invalid-layout fault for that buffer; the
faulting call returns no output, so no element mapping or output values
are computed. -/
theorem invalid_layout_fault_spec (k : ODThresholdKernel) (lookup : Int → ℚ)
    (src : RawImage) (ho : validLayout src.order = false) :
    doProcessData k lookup src = Except.error Fault.invalidLayout := by
  simp [doProcessData, ho]

/-- Witness for `invalid_layout_fault_spec` at a concrete buffer with an
unrecognized layout. -/
theorem invalid_layout_fault_spec_witness :
    validLayout srcBadLayout.order = false ∧
    doProcessData kLower lookupId srcBadLayout = Except.error Fault.invalidLayout :=
  ⟨by decide, invalid_layout_fault_spec kLower lookupId srcBadLayout (by decide)⟩

/-- C6: when some derived channel index reaches or exceeds the declared
source channel count, the transform signals the out-of-range-channel
fault and aborts the invocation, returning no output and reading no
channel. -/
theorem out_of_range_channel_fault_spec (k : ODThresholdKernel) (lookup : Int → ℚ)
    (src : RawImage) (ho : validLayout src.order = true)
    (hex : ∃ c ∈ translateSourceToOutputChannels src.colorSpace.colorModel (channels src),
      channels src ≤ c) :
    channelsInRange src = false ∧
    doProcessData k lookup src = Except.error Fault.outOfRangeChannel := by
  have hcr : channelsInRange src = false := by
    rcases hex with ⟨c, hc, hle⟩
    apply Bool.eq_false_iff.mpr
    intro h
    unfold channelsInRange at h
    rw [List.all_eq_true] at h
    have hcl := h c hc
    simp only [decide_eq_true_eq] at hcl
    omega
  exact ⟨hcr, by simp [doProcessData, ho, hcr]⟩

/-- Witness for `out_of_range_channel_fault_spec` at the concrete
mismatched source (RGB color model, 2 declared channels). -/
theorem out_of_range_channel_fault_spec_witness :
    validLayout srcMismatch.order = true ∧
    (∃ c ∈ translateSourceToOutputChannels srcMismatch.colorSpace.colorModel
      (channels srcMismatch), channels srcMismatch ≤ c) ∧
    channelsInRange srcMismatch = false ∧
    doProcessData kLower lookupId srcMismatch = Except.error Fault.outOfRangeChannel :=
  ⟨by decide, by decide,
    out_of_range_channel_fault_spec kLower lookupId srcMismatch (by decide) (by decide)⟩

/-- C7: at every pixel of a successfully processed source, the output
holds the maximum output-color channel value in its 4th channel (index
3), regardless of retention. -/
theorem alpha_channel_always_max (k : ODThresholdKernel) (lookup : Int → ℚ)
    (src : RawImage) (ho : validLayout src.order = true)
    (hcr : channelsInRange src = true) (p : Nat) (hp : p < numPixels src) :
    doProcessData k lookup src = Except.ok (processOutput k lookup src) ∧
    (processOutput k lookup src).data (outOffset src.order (numPixels src) p 3)
      = maxChannelValue OutputColor := by
  refine ⟨doProcessData_ok k lookup src ho hcr, ?_⟩
  rw [processOutput_data_at k lookup src ho hp (by omega)]
  simp [pixelValue]

/-- Witness for `alpha_channel_always_max` at a concrete grayscale
source and a non-retaining kernel. -/
theorem alpha_channel_always_max_witness :
    validLayout srcGray.order = true ∧ channelsInRange srcGray = true ∧
    0 < numPixels srcGray ∧
    doProcessData kNoAction lookupId srcGray
      = Except.ok (processOutput kNoAction lookupId srcGray) ∧
    (processOutput kNoAction lookupId srcGray).data
      (outOffset srcGray.order (numPixels srcGray) 0 3) = maxChannelValue OutputColor :=
  ⟨by decide, by decide, by decide,
    (alpha_channel_always_max kNoAction lookupId srcGray (by decide) (by decide) 0 (by decide)).1,
    (alpha_channel_always_max kNoAction lookupId srcGray (by decide) (by decide) 0 (by decide)).2⟩

/-- C8: the transform output is a freshly constructed buffer with the
source width and height, the fixed 4-channel RGBA/UInt8 color space
(independent of the source channel count), the source pixel memory
order, and all elements zero-initialized prior to population. -/
theorem output_buffer_construction (k : ODThresholdKernel) (lookup : Int → ℚ)
    (src : RawImage) (ho : validLayout src.order = true)
    (hcr : channelsInRange src = true) :
    doProcessData k lookup src = Except.ok (processOutput k lookup src) ∧
    (processOutput k lookup src).width = src.width ∧
    (processOutput k lookup src).height = src.height ∧
    (processOutput k lookup src).colorSpace = OutputColor ∧
    (processOutput k lookup src).channelCount = 4 ∧
    (processOutput k lookup src).order = src.order ∧
    (∀ i : Nat, (mkOutputBuffer src).data i = 0) := by
  refine ⟨doProcessData_ok k lookup src ho hcr, ?_, ?_, ?_, ?_, ?_, fun i => rfl⟩ <;>
    simp [processOutput, mkOutputBuffer, colorModelChannels, OutputColor]

/-- Witness for `output_buffer_construction` at the concrete RGB source. -/
theorem output_buffer_construction_witness :
    validLayout srcRGB.order = true ∧ channelsInRange srcRGB = true ∧
    doProcessData kLower lookupId srcRGB
      = Except.ok (processOutput kLower lookupId srcRGB) ∧
    (processOutput kLower lookupId srcRGB).width = srcRGB.width ∧
    (processOutput kLower lookupId srcRGB).height = srcRGB.height ∧
    (processOutput kLower lookupId srcRGB).colorSpace = OutputColor ∧
    (processOutput kLower lookupId srcRGB).channelCount = 4 ∧
    (processOutput kLower lookupId srcRGB).order = srcRGB.order ∧
    (mkOutputBuffer srcRGB).data 9 = 0 :=
  ⟨by decide, by decide,
    (output_buffer_construction kLower lookupId srcRGB (by decide) (by decide)).1,
    (output_buffer_construction kLower lookupId srcRGB (by decide) (by decide)).2.1,
    (output_buffer_construction kLower lookupId srcRGB (by decide) (by decide)).2.2.1,
    (output_buffer_construction kLower lookupId srcRGB (by decide) (by decide)).2.2.2.1,
    (output_buffer_construction kLower lookupId srcRGB (by decide) (by decide)).2.2.2.2.1,
    (output_buffer_construction kLower lookupId srcRGB (by decide) (by decide)).2.2.2.2.2.1,
    (output_buffer_construction kLower lookupId srcRGB (by decide) (by decide)).2.2.2.2.2.2 9⟩

/-- C2: in the no-action mode the retention predicate is always false,
the transform still succeeds on any valid source (the mode is a defined
disabled state, not an error or fault path), and every output pixel is
black in its first three channels with the alpha/mask channel at the
maximum output value. -/
theorem no_action_mode_spec (k : ODThresholdKernel) (lookup : Int → ℚ)
    (src : RawImage) (hb : k.m_behavior = Behavior.NO_ACTION)
    (ho : validLayout src.order = true) (hcr : channelsInRange src = true) :
    (∀ odVal thresh : ℚ, retainPred Behavior.NO_ACTION odVal thresh = false) ∧
    doProcessData k lookup src = Except.ok (processOutput k lookup src) ∧
    (∀ p c : Nat, p < numPixels src → c < 3 →
      (processOutput k lookup src).data (outOffset src.order (numPixels src) p c) = 0) ∧
    (∀ p : Nat, p < numPixels src →
      (processOutput k lookup src).data (outOffset src.order (numPixels src) p 3)
        = maxChannelValue OutputColor) := by
  refine ⟨fun _ _ => rfl, doProcessData_ok k lookup src ho hcr, ?_, ?_⟩
  · intro p c hp hc
    have hc3 : c ≠ 3 := by omega
    rw [processOutput_data_at k lookup src ho hp (by omega)]
    simp [pixelValue, hc3, hb, retainPred, mkOutputBuffer]
  · intro p hp
    rw [processOutput_data_at k lookup src ho hp (by omega)]
    simp [pixelValue]

/-- Witness for `no_action_mode_spec` at the concrete grayscale source. -/
theorem no_action_mode_spec_witness :
    kNoAction.m_behavior = Behavior.NO_ACTION ∧
    validLayout srcGray.order = true ∧ channelsInRange srcGray = true ∧
    retainPred Behavior.NO_ACTION 0 0 = false ∧
    doProcessData kNoAction lookupId srcGray
      = Except.ok (processOutput kNoAction lookupId srcGray) ∧
    (processOutput kNoAction lookupId srcGray).data
      (outOffset srcGray.order (numPixels srcGray) 1 0) = 0 ∧
    (processOutput kNoAction lookupId srcGray).data
      (outOffset srcGray.order (numPixels srcGray) 1 3) = maxChannelValue OutputColor :=
  ⟨rfl, by decide, by decide,
    (no_action_mode_spec kNoAction lookupId srcGray rfl (by decide) (by decide)).1 0 0,
    (no_action_mode_spec kNoAction lookupId srcGray rfl (by decide) (by decide)).2.1,
    (no_action_mode_spec kNoAction lookupId srcGray rfl (by decide) (by decide)).2.2.1
      1 0 (by decide) (by decide),
    (no_action_mode_spec kNoAction lookupId srcGray rfl (by decide) (by decide)).2.2.2
      1 (by decide)⟩

/-- C4: retain-lower retains a pixel exactly when its combined OD is at
most the threshold, retain-higher exactly when it is at least the
threshold (equality retains under both modes), a retained pixel has its
mapped source channel values copied verbatim into the corresponding
output channels, and a non-retained pixel keeps zeros in its first three
output channels. -/
theorem retention_predicate_spec (k : ODThresholdKernel) (lookup : Int → ℚ)
    (src : RawImage) (ho : validLayout src.order = true)
    (hcr : channelsInRange src = true) (p : Nat) (hp : p < numPixels src) :
    doProcessData k lookup src = Except.ok (processOutput k lookup src) ∧
    (k.m_behavior = Behavior.RETAIN_LOWER_OD →
      (retainPred k.m_behavior (combinedOD k lookup src p) k.m_odThreshVal = true ↔
        combinedOD k lookup src p ≤ k.m_odThreshVal)) ∧
    (k.m_behavior = Behavior.RETAIN_HIGHER_OD →
      (retainPred k.m_behavior (combinedOD k lookup src p) k.m_odThreshVal = true ↔
        k.m_odThreshVal ≤ combinedOD k lookup src p)) ∧
    (combinedOD k lookup src p = k.m_odThreshVal →
      retainPred Behavior.RETAIN_LOWER_OD (combinedOD k lookup src p) k.m_odThreshVal = true ∧
      retainPred Behavior.RETAIN_HIGHER_OD (combinedOD k lookup src p) k.m_odThreshVal = true) ∧
    (retainPred k.m_behavior (combinedOD k lookup src p) k.m_odThreshVal = true →
      ∀ c : Nat, c < 3 →
        (processOutput k lookup src).data (outOffset src.order (numPixels src) p c) =
          src.data (srcOffset src.order (channels src) (numPixels src) p
            ((translateSourceToOutputChannels src.colorSpace.colorModel
              (channels src)).getD c 0))) ∧
    (retainPred k.m_behavior (combinedOD k lookup src p) k.m_odThreshVal = false →
      ∀ c : Nat, c < 3 →
        (processOutput k lookup src).data (outOffset src.order (numPixels src) p c) = 0) := by
  refine ⟨doProcessData_ok k lookup src ho hcr, ?_, ?_, ?_, ?_, ?_⟩
  · intro hb
    rw [hb]
    simp [retainPred]
  · intro hb
    rw [hb]
    simp [retainPred]
  · intro he
    constructor <;> simp [retainPred, he]
  · intro hr c hc
    have hc3 : c ≠ 3 := by omega
    rw [processOutput_data_at k lookup src ho hp (by omega)]
    simp [pixelValue, hc3, hr]
  · intro hr c hc
    have hc3 : c ≠ 3 := by omega
    rw [processOutput_data_at k lookup src ho hp (by omega)]
    simp [pixelValue, hc3, hr, mkOutputBuffer]

/-- Witness for `retention_predicate_spec` at the concrete RGB source:
`kCopy` sits exactly at the threshold (combined OD 10, threshold 10), so
the pixel is retained and copied; `kSkip` has threshold 5, so the pixel
is dropped and the output stays black. -/
theorem retention_predicate_spec_witness :
    validLayout srcRGB.order = true ∧ channelsInRange srcRGB = true ∧
    0 < numPixels srcRGB ∧
    (retainPred kCopy.m_behavior (combinedOD kCopy lookupId srcRGB 0)
        kCopy.m_odThreshVal = true ↔
      combinedOD kCopy lookupId srcRGB 0 ≤ kCopy.m_odThreshVal) ∧
    (retainPred Behavior.RETAIN_LOWER_OD (combinedOD kCopy lookupId srcRGB 0)
        kCopy.m_odThreshVal = true ∧
      retainPred Behavior.RETAIN_HIGHER_OD (combinedOD kCopy lookupId srcRGB 0)
        kCopy.m_odThreshVal = true) ∧
    (processOutput kCopy lookupId srcRGB).data
        (outOffset srcRGB.order (numPixels srcRGB) 0 0) =
      srcRGB.data (srcOffset srcRGB.order (channels srcRGB) (numPixels srcRGB) 0
        ((translateSourceToOutputChannels srcRGB.colorSpace.colorModel
          (channels srcRGB)).getD 0 0)) ∧
    (processOutput kSkip lookupId srcRGB).data
      (outOffset srcRGB.order (numPixels srcRGB) 0 0) = 0 :=
  ⟨by decide, by decide, by decide,
    (retention_predicate_spec kCopy lookupId srcRGB (by decide) (by decide) 0 (by decide)).2.1
      rfl,
    (retention_predicate_spec kCopy lookupId srcRGB (by decide) (by decide) 0 (by decide)).2.2.2.1
      (combinedOD_kCopy.trans rfl),
    (retention_predicate_spec kCopy lookupId srcRGB (by decide) (by decide) 0 (by decide)).2.2.2.2.1
      (by rw [combinedOD_kCopy]; decide) 0 (by decide),
    (retention_predicate_spec kSkip lookupId srcRGB (by decide) (by decide) 0 (by decide)).2.2.2.2.2
      (by rw [combinedOD_kSkip]; decide) 0 (by decide)⟩

/-- C9: each configuration setter is a no-op with no invalidation
notification when the new value equals the stored one, and otherwise
stores exactly the new value in its own field, leaves the other two
configuration fields unchanged, and calls the `update()` notification
exactly once. -/
theorem config_setters_spec (k : ODThresholdKernel) (v : ℚ) (t : Behavior) (w : Weights3) :
    (k.m_odThreshVal = v → setODThreshold k v = (k, 0)) ∧
    (k.m_odThreshVal ≠ v →
      setODThreshold k v = ({ k with m_odThreshVal := v }, 1)) ∧
    (k.m_behavior = t → setBehavior k t = (k, 0)) ∧
    (k.m_behavior ≠ t → setBehavior k t = ({ k with m_behavior := t }, 1)) ∧
    (k.m_weightVals = w → setWeights k w = (k, 0)) ∧
    (k.m_weightVals ≠ w → setWeights k w = ({ k with m_weightVals := w }, 1)) := by
  refine ⟨?_, ?_, ?_, ?_, ?_, ?_⟩ <;> intro h
  · simp [setODThreshold, h]
  · simp [setODThreshold, h]
  · simp [setBehavior, h]
  · simp [setBehavior, Ne.symm h]
  · simp [setWeights, h]
  · simp [setWeights, Ne.symm h]

/-- Witness for `config_setters_spec`: both branches of all three setters
at the concrete kernel `kLower`. -/
theorem config_setters_spec_witness :
    setODThreshold kLower 1 = (kLower, 0) ∧
    setODThreshold kLower 2 = ({ kLower with m_odThreshVal := 2 }, 1) ∧
    setBehavior kLower Behavior.RETAIN_LOWER_OD = (kLower, 0) ∧
    setBehavior kLower Behavior.NO_ACTION
      = ({ kLower with m_behavior := Behavior.NO_ACTION }, 1) ∧
    setWeights kLower { w0 := 1, w1 := 1, w2 := 1 } = (kLower, 0) ∧
    setWeights kLower { w0 := 2, w1 := 1, w2 := 1 }
      = ({ kLower with m_weightVals := { w0 := 2, w1 := 1, w2 := 1 } }, 1) :=
  ⟨(config_setters_spec kLower 1 Behavior.RETAIN_LOWER_OD
      { w0 := 1, w1 := 1, w2 := 1 }).1 rfl,
    (config_setters_spec kLower 2 Behavior.RETAIN_LOWER_OD
      { w0 := 1, w1 := 1, w2 := 1 }).2.1 (by decide),
    (config_setters_spec kLower 1 Behavior.RETAIN_LOWER_OD
      { w0 := 1, w1 := 1, w2 := 1 }).2.2.1 rfl,
    (config_setters_spec kLower 1 Behavior.NO_ACTION
      { w0 := 1, w1 := 1, w2 := 1 }).2.2.2.1 (by decide),
    (config_setters_spec kLower 1 Behavior.RETAIN_LOWER_OD
      { w0 := 1, w1 := 1, w2 := 1 }).2.2.2.2.1 rfl,
    (config_setters_spec kLower 1 Behavior.RETAIN_LOWER_OD
      { w0 := 2, w1 := 1, w2 := 1 }).2.2.2.2.2 (by decide)⟩

/-- C10: the kernel constructed by `buildPipeline` is determined by the
threshold, retainment and weight parameters alone, so two parameter sets
that agree on those but differ in the selected threshold type yield
identical kernels; the threshold-type selection enters only the rebuild
condition, which it does trigger. -/
theorem threshold_type_noninterference (a b : PipelineParams)
    (ht : a.m_threshold = b.m_threshold) (hr : a.m_retainment = b.m_retainment)
    (hw0 : a.m_RWeight = b.m_RWeight) (hw1 : a.m_GWeight = b.m_GWeight)
    (hw2 : a.m_BWeight = b.m_BWeight) :
    buildPipelineKernel a = buildPipelineKernel b ∧
    (∀ f : ParamChangedFlags, f.thresholdType = true → rebuildCondition f = true) := by
  constructor
  · simp [buildPipelineKernel, ht, hr, hw0, hw1, hw2]
  · intro f hf
    simp [rebuildCondition, hf]

/-- Witness for `threshold_type_noninterference`: the concrete parameter
sets `ppA` and `ppB` differ only in the threshold type, and build the
same kernel; a threshold-type-only change still triggers a rebuild. -/
theorem threshold_type_noninterference_witness :
    ppA.m_thresholdType ≠ ppB.m_thresholdType ∧
    ppA.m_threshold = ppB.m_threshold ∧ ppA.m_retainment = ppB.m_retainment ∧
    ppA.m_RWeight = ppB.m_RWeight ∧ ppA.m_GWeight = ppB.m_GWeight ∧
    ppA.m_BWeight = ppB.m_BWeight ∧
    buildPipelineKernel ppA = buildPipelineKernel ppB ∧
    rebuildCondition thresholdTypeOnlyFlags = true :=
  ⟨by decide, rfl, rfl, rfl, rfl, rfl,
    (threshold_type_noninterference ppA ppB rfl rfl rfl rfl rfl).1,
    (threshold_type_noninterference ppA ppB rfl rfl rfl rfl rfl).2
      thresholdTypeOnlyFlags rfl⟩

/-- C1 counterexample: for a 3-channel BGR source the mapping code at
`ODThresholdKernel.cpp:110-111` produces channels 2, 1, 0, not the
unreordered channels 0, 1, 2 the claim asserts for every non-grayscale
color model; concretely, the first OD-contributing read of the transform
on `srcBGR` takes source channel 2 (value 30), not channel 0 (value 10). -/
theorem channel_mapping_counterexample :
    translateSourceToOutputChannels ColorModel.BGR 3 = [2, 1, 0] ∧
    claimNoReorderMapping ColorModel.BGR 3 = [0, 1, 2] ∧
    translateSourceToOutputChannels ColorModel.BGR 3
      ≠ claimNoReorderMapping ColorModel.BGR 3 ∧
    odRead lookupId srcBGR 0
      ((translateSourceToOutputChannels srcBGR.colorSpace.colorModel
        (channels srcBGR)).getD 0 0) = 30 ∧
    odRead lookupId srcBGR 0 0 = 10 := by
  refine ⟨by decide, by decide, by decide, ?_, ?_⟩
  · simp [odRead, lookupId, srcBGR, srcOffset, channels, numPixels, translate_bgr3]
  · simp [odRead, lookupId, srcBGR, srcOffset, channels, numPixels]

/-- C1 (amended): the three OD-contributing reads of the transform come
from channel 0 three times for a grayscale or single-channel source, from
channels 2, 1, 0 for a BGR source, and from channels 0, 1, 2 for every
other source. -/
theorem channel_mapping_characterization (k : ODThresholdKernel) (lookup : Int → ℚ)
    (src : RawImage) (p : Nat) :
    ((src.colorSpace.colorModel = ColorModel.Grayscale ∨ channels src = 1) →
      combinedOD k lookup src p =
        (k.m_weightVals.w0 * odRead lookup src p 0
          + k.m_weightVals.w1 * odRead lookup src p 0
          + k.m_weightVals.w2 * odRead lookup src p 0) / weightDenominator k) ∧
    (¬(src.colorSpace.colorModel = ColorModel.Grayscale ∨ channels src = 1) →
      src.colorSpace.colorModel = ColorModel.BGR →
      combinedOD k lookup src p =
        (k.m_weightVals.w0 * odRead lookup src p 2
          + k.m_weightVals.w1 * odRead lookup src p 1
          + k.m_weightVals.w2 * odRead lookup src p 0) / weightDenominator k) ∧
    (¬(src.colorSpace.colorModel = ColorModel.Grayscale ∨ channels src = 1) →
      src.colorSpace.colorModel ≠ ColorModel.BGR →
      combinedOD k lookup src p =
        (k.m_weightVals.w0 * odRead lookup src p 0
          + k.m_weightVals.w1 * odRead lookup src p 1
          + k.m_weightVals.w2 * odRead lookup src p 2) / weightDenominator k) := by
  refine ⟨?_, ?_, ?_⟩
  · intro h
    simp only [combinedOD, translateSourceToOutputChannels, if_pos h]
    simp [Weights3.get]
  · intro h hb
    simp only [combinedOD, translateSourceToOutputChannels, if_neg h, if_pos hb]
    simp [Weights3.get]
  · intro h hb
    simp only [combinedOD, translateSourceToOutputChannels, if_neg h, if_neg hb]
    simp [Weights3.get]

/-- Witness for `channel_mapping_characterization`: the grayscale case at
`srcGray` and the BGR case at `srcBGR`. -/
theorem channel_mapping_characterization_witness :
    (srcGray.colorSpace.colorModel = ColorModel.Grayscale ∨ channels srcGray = 1) ∧
    combinedOD kLower lookupId srcGray 0 =
      (kLower.m_weightVals.w0 * odRead lookupId srcGray 0 0
        + kLower.m_weightVals.w1 * odRead lookupId srcGray 0 0
        + kLower.m_weightVals.w2 * odRead lookupId srcGray 0 0)
        / weightDenominator kLower ∧
    ¬(srcBGR.colorSpace.colorModel = ColorModel.Grayscale ∨ channels srcBGR = 1) ∧
    srcBGR.colorSpace.colorModel = ColorModel.BGR ∧
    combinedOD kLower lookupId srcBGR 0 =
      (kLower.m_weightVals.w0 * odRead lookupId srcBGR 0 2
        + kLower.m_weightVals.w1 * odRead lookupId srcBGR 0 1
        + kLower.m_weightVals.w2 * odRead lookupId srcBGR 0 0)
        / weightDenominator kLower :=
  ⟨by decide,
    (channel_mapping_characterization kLower lookupId srcGray 0).1 (by decide),
    by decide, rfl,
    (channel_mapping_characterization kLower lookupId srcBGR 0).2.1 (by decide) rfl⟩

/-- C3 counterexample: the weights (1, -1, 0) sum to exactly zero, so the
denominator falls back to 1, yet the combined OD of the concrete RGB
pixel (10, 20, 30) under the identity lookup is -10, not 0: a zero weight
sum alone does not force a zero combined OD. -/
theorem zero_weight_sum_counterexample :
    weightSum kMixedWeights = 0 ∧ weightDenominator kMixedWeights = 1 ∧
    combinedOD kMixedWeights lookupId srcRGB 0 = -10 ∧ (-10 : ℚ) ≠ 0 := by
  refine ⟨by norm_num [weightSum, kMixedWeights],
    by norm_num [weightDenominator, weightSum, kMixedWeights], ?_, by norm_num⟩
  simp [combinedOD, kMixedWeights, lookupId, srcRGB, odRead, srcOffset, channels,
    numPixels, translate_rgb3, weightDenominator, weightSum, Weights3.get]
  norm_num

/-- C3 (amended): whenever the three weights sum to exactly zero the
normalization denominator is 1 rather than the sum, so the division is
always well defined (the denominator is never zero); and when the weights
are moreover individually nonnegative, as the configuration surface
intends (each in [0, 10]), the combined OD of every pixel is 0. -/
theorem zero_weight_sum_fallback (k : ODThresholdKernel) (lookup : Int → ℚ)
    (src : RawImage) (p : Nat) (hsum : weightSum k = 0)
    (h0 : 0 ≤ k.m_weightVals.w0) (h1 : 0 ≤ k.m_weightVals.w1)
    (h2 : 0 ≤ k.m_weightVals.w2) :
    weightDenominator k = 1 ∧ weightDenominator k ≠ 0 ∧
    combinedOD k lookup src p = 0 := by
  have hd : weightDenominator k = 1 := by simp [weightDenominator, hsum]
  have hs := hsum
  simp only [weightSum, zero_add] at hs
  have hw0 : k.m_weightVals.w0 = 0 := by linarith
  have hw1 : k.m_weightVals.w1 = 0 := by linarith
  have hw2 : k.m_weightVals.w2 = 0 := by linarith
  refine ⟨hd, by simp [hd], ?_⟩
  simp [combinedOD, Weights3.get, hw0, hw1, hw2]

/-- Witness for `zero_weight_sum_fallback` at the all-zero weight kernel
and the concrete grayscale source. -/
theorem zero_weight_sum_fallback_witness :
    weightSum kZeroWeights = 0 ∧
    0 ≤ kZeroWeights.m_weightVals.w0 ∧ 0 ≤ kZeroWeights.m_weightVals.w1 ∧
    0 ≤ kZeroWeights.m_weightVals.w2 ∧
    weightDenominator kZeroWeights = 1 ∧ weightDenominator kZeroWeights ≠ 0 ∧
    combinedOD kZeroWeights lookupId srcGray 0 = 0 :=
  ⟨by simp [weightSum, kZeroWeights], by decide, by decide, by decide,
    (zero_weight_sum_fallback kZeroWeights lookupId srcGray 0
      (by simp [weightSum, kZeroWeights]) (by decide) (by decide) (by decide)).1,
    (zero_weight_sum_fallback kZeroWeights lookupId srcGray 0
      (by simp [weightSum, kZeroWeights]) (by decide) (by decide) (by decide)).2.1,
    (zero_weight_sum_fallback kZeroWeights lookupId srcGray 0
      (by simp [weightSum, kZeroWeights]) (by decide) (by decide) (by decide)).2.2⟩
